import Mathlib

/-!
Shallow embedding of `src/function.py`: four Selenium helper operations
(`input_text`, `click_element`, `click_checkbox`, `select_dropdown_option`).

The browser automation layer is modelled as a record of primitive operations
(`Driver`) over an abstract world `W`; each primitive either returns a value or
raises an exception (`Exn`), always together with the world reached so far
(side effects performed before a raise persist, as in Python).  The four Python
functions are translated statement by statement into this monad; `try/except`
becomes `tryE`.  A concrete honest page model (`pageDriver`) interprets the
primitives against a static rendered page, following Selenium semantics
(`element_to_be_clickable` requires the element to be enabled,
`get_attribute "readonly"` returns a truthy string for read-only fields,
`send_keys` appends, clicks toggle checkboxes).
-/

/-- The exception classes that the automation layer can raise; every
constructor corresponds to a Python exception class deriving from
`Exception`, so a bare `except Exception` handler catches all of them. -/
inductive Exn where
  | timeoutExn
  | elementClickInterceptedExn
  | noSuchElementExn
  | staleElementRefExn
  | valueErrorExn
  | otherExn
deriving Repr, DecidableEq

/-- A driver computation: state passing over the world `W`, returning either a
value or a raised exception, together with the world reached (effects before a
raise persist). -/
def DM (W : Type) (α : Type) : Type := W → Except Exn α × W

/-- Explicit bind for `DM`. -/
def bindDM {W α β : Type} (m : DM W α) (f : α → DM W β) : DM W β := fun w =>
  match m w with
  | (Except.ok a, w') => f a w'
  | (Except.error e, w') => (Except.error e, w')

/-- Explicit pure for `DM`. -/
def pureDM {W α : Type} (a : α) : DM W α := fun w => (Except.ok a, w)

instance {W : Type} : Monad (DM W) where
  pure := pureDM
  bind := bindDM

@[simp] theorem bind_apply {W α β : Type} (m : DM W α) (f : α → DM W β) :
    m >>= f = bindDM m f := rfl

@[simp] theorem pure_apply {W α : Type} (a : α) :
    (pure a : DM W α) = pureDM a := rfl

@[simp] theorem pureDM_apply {W α : Type} (a : α) (w : W) :
    (pureDM a : DM W α) w = (Except.ok a, w) := rfl

/-- Python `try: body except ...: handler` — if the body raises, the handler
runs from the world the body had reached when it raised. -/
def tryE {W α : Type} (m : DM W α) (h : Exn → DM W α) : DM W α := fun w =>
  match m w with
  | (Except.ok a, w') => (Except.ok a, w')
  | (Except.error e, w') => h e w'

/-- Lift a pure fallible result (such as Python `int(...)`) into `DM`. -/
def liftE {W α : Type} (r : Except Exn α) : DM W α := fun w => (r, w)

/-- `time.sleep(0.5)`: a primitive that cannot raise; it only advances the
world through the driver-supplied function. -/
def stepSleep {W : Type} (f : W → W) : DM W Unit := fun w => (Except.ok (), f w)

/-- Python truthiness of the result of `get_attribute("readonly")`: `None` and
the empty string are falsy, any other string is truthy. -/
def pyTruthy : Option String → Bool
  | none => false
  | some s => !s.isEmpty

/-- Accumulate a decimal digit run; `none` as soon as a non-digit appears. -/
def decDigitsAux : List Char → Nat → Option Nat
  | [], acc => some acc
  | c :: cs, acc =>
      if c.isDigit then decDigitsAux cs (acc * 10 + (c.toNat - Char.toNat (Char.ofNat 48)))
      else none

/-- Python `int()` on an already-stripped character list: one optional sign
followed by a nonempty all-digit run; anything else raises `ValueError`. -/
def pyIntCore : List Char → Except Exn Int
  | [] => Except.error Exn.valueErrorExn
  | c :: rest =>
      if c = Char.ofNat 45 then
        match rest, decDigitsAux rest 0 with
        | _ :: _, some n => Except.ok (-(n : Int))
        | _, _ => Except.error Exn.valueErrorExn
      else if c = Char.ofNat 43 then
        match rest, decDigitsAux rest 0 with
        | _ :: _, some n => Except.ok (n : Int)
        | _, _ => Except.error Exn.valueErrorExn
      else
        match decDigitsAux (c :: rest) 0 with
        | some n => Except.ok (n : Int)
        | none => Except.error Exn.valueErrorExn

/-- Strip whitespace from both ends of a string, as Python `int()` does before
parsing. -/
def pyStrip (s : String) : List Char :=
  ((s.data.dropWhile Char.isWhitespace).reverse.dropWhile Char.isWhitespace).reverse

/-- Python `int(s)`: strips surrounding whitespace, then parses an optionally
signed decimal literal, raising `ValueError` when the string is not one. -/
def pyInt (s : String) : Except Exn Int := pyIntCore (pyStrip s)

/-- A Selenium locator: a (strategy, value) pair such as `(By.ID, "my-id")`. -/
abbrev Locator : Type := String × String

/-- The automation primitives used by `src/function.py`, over an abstract
world `W`, element-handle type `E` and select-handle type `S`.  Each field is
one underlying Selenium/WebDriver call site. -/
structure Driver (W E S : Type) where
  /-- `WebDriverWait(driver, 10).until(EC.invisibility_of_element_located((By.CLASS_NAME, "dimmer-holder")))` -/
  waitOverlay : DM W Unit
  /-- `WebDriverWait(driver, timeout).until(EC.element_to_be_clickable(locator))` -/
  waitClickable : Locator → Nat → DM W E
  /-- `WebDriverWait(driver, timeout).until(EC.presence_of_element_located(locator))` -/
  waitPresent : Locator → Nat → DM W E
  /-- `driver.find_element(*locator)` -/
  findElement : Locator → DM W E
  /-- `driver.execute_script("arguments[0].scrollIntoView(...)", element)` -/
  scrollIntoView : E → DM W Unit
  /-- `time.sleep(0.5)` — pure world advance, never raises -/
  sleepHalf : W → W
  /-- `element.is_enabled()` -/
  isEnabled : E → DM W Bool
  /-- `element.get_attribute("readonly")` -/
  getAttributeReadonly : E → DM W (Option String)
  /-- `driver.execute_script("arguments[0].readOnly = false;", element)` -/
  setReadOnlyFalse : E → DM W Unit
  /-- `driver.execute_script("arguments[0].disabled = false;", element)` -/
  setDisabledFalse : E → DM W Unit
  /-- `driver.execute_script("arguments[0].value = arguments[1];", element, text)` -/
  setValueJS : E → String → DM W Unit
  /-- `element.clear()` -/
  clearField : E → DM W Unit
  /-- `element.send_keys(text)` -/
  sendKeys : E → String → DM W Unit
  /-- `driver.execute_script("... dispatchEvent(new Event('input', ...))", element)` -/
  dispatchInputEvent : E → DM W Unit
  /-- `driver.execute_script("... dispatchEvent(new Event('change', ...))", element)` -/
  dispatchChangeEvent : E → DM W Unit
  /-- `element.click()` -/
  click : E → DM W Unit
  /-- `driver.execute_script("arguments[0].click();", element)` -/
  jsClick : E → DM W Unit
  /-- `element.is_selected()` -/
  isSelected : E → DM W Bool
  /-- `Select(element)` -/
  mkSelect : E → DM W S
  /-- `select.select_by_visible_text(option_text)` -/
  selectByVisibleText : S → String → DM W Unit
  /-- `select.select_by_value(option_text)` -/
  selectByValue : S → String → DM W Unit
  /-- `select.select_by_index(i)` -/
  selectByIndex : S → Int → DM W Unit
  /-- `select.first_selected_option.text` -/
  firstSelectedOptionText : S → DM W String
  /-- `[opt.text for opt in Select(...).options]` -/
  optionsTexts : S → DM W (List String)

section Operations

variable {W E S : Type}

/-- The body of the `try:` block of `input_text` (`src/function.py` lines
46–77). -/
def input_text_main (d : Driver W E S) (locator : Locator) (text : String)
    (timeout : Nat) (clear_first : Bool) : DM W Bool := do
  d.waitOverlay
  let element ← d.waitClickable locator timeout
  d.scrollIntoView element
  stepSleep d.sleepHalf
  let enabled ← d.isEnabled element
  let blocked ←
    if !enabled then
      pure true
    else do
      let ro ← d.getAttributeReadonly element
      pure (pyTruthy ro)
  if blocked then do
    d.setReadOnlyFalse element
    d.setDisabledFalse element
    d.setValueJS element text
  else do
    if clear_first then d.clearField element
    d.sendKeys element text
  d.dispatchInputEvent element
  d.dispatchChangeEvent element
  pure true

/-- The final JavaScript fallback of `input_text` (`src/function.py` lines
85–91): re-locate, force-set the value, fire an `input` event. -/
def input_text_fallback (d : Driver W E S) (locator : Locator) (text : String) :
    DM W Bool := do
  let element ← d.findElement locator
  d.setValueJS element text
  d.dispatchInputEvent element
  pure true

/-- `input_text` (`src/function.py` lines 21–94): `TimeoutException` returns
`False` directly; any other exception triggers the JavaScript fallback, whose
own failure returns `False`. -/
def input_text (d : Driver W E S) (locator : Locator) (text : String)
    (timeout : Nat) (clear_first : Bool) : DM W Bool :=
  tryE (input_text_main d locator text timeout clear_first) fun e =>
    match e with
    | Exn.timeoutExn => pure false
    | _ => tryE (input_text_fallback d locator text) fun _ => pure false

/-- The body of the `try:` block of `click_element` (`src/function.py` lines
118–135). -/
def click_element_main (d : Driver W E S) (locator : Locator) (timeout : Nat) :
    DM W Bool := do
  d.waitOverlay
  let element ← d.waitClickable locator timeout
  d.scrollIntoView element
  stepSleep d.sleepHalf
  d.click element
  pure true

/-- The JavaScript fallback click of `click_element` (`src/function.py` lines
141–144): re-find the element, then click via script. -/
def click_element_fallback (d : Driver W E S) (locator : Locator) : DM W Bool := do
  let element ← d.findElement locator
  d.jsClick element
  pure true

/-- `click_element` (`src/function.py` lines 97–153): the JavaScript fallback
runs only on `ElementClickInterceptedException`; timeouts and any other
exception return `False` with no fallback. -/
def click_element (d : Driver W E S) (locator : Locator) (timeout : Nat) :
    DM W Bool :=
  tryE (click_element_main d locator timeout) fun e =>
    match e with
    | Exn.elementClickInterceptedExn =>
        tryE (click_element_fallback d locator) fun _ => pure false
    | Exn.timeoutExn => pure false
    | _ => pure false

/-- The body of the `try:` block of `click_checkbox` (`src/function.py` lines
171–198): wait for presence, scroll, read the state, click via
`click_element` only when the state differs, then re-find the element and
verify the final state. -/
def click_checkbox_main (d : Driver W E S) (locator : Locator)
    (desired_state : Bool) (timeout : Nat) : DM W Bool := do
  let element ← d.waitPresent locator timeout
  d.scrollIntoView element
  stepSleep d.sleepHalf
  let cur ← d.isSelected element
  let proceed ←
    if cur != desired_state then
      click_element d locator timeout
    else
      pure true
  if proceed then do
    let fresh ← d.findElement locator
    let final ← d.isSelected fresh
    pure (final == desired_state)
  else
    pure false

/-- `click_checkbox` (`src/function.py` lines 156–205). -/
def click_checkbox (d : Driver W E S) (locator : Locator) (desired_state : Bool)
    (timeout : Nat) : DM W Bool :=
  tryE (click_checkbox_main d locator desired_state timeout) fun e =>
    match e with
    | Exn.timeoutExn => pure false
    | _ => pure false

/-- The body of the `try:` block of `select_dropdown_option`
(`src/function.py` lines 224–249): dispatch on the selection mode, then read
back the currently selected option's label (logged only). -/
def select_dropdown_main (d : Driver W E S) (locator : Locator)
    (option_text : String) (mode : String) (timeout : Nat) : DM W Bool := do
  let dropdown_element ← d.waitPresent locator timeout
  d.scrollIntoView dropdown_element
  stepSleep d.sleepHalf
  let sel ← d.mkSelect dropdown_element
  let dispatched ←
    if mode == "visible_text" then do
      d.selectByVisibleText sel option_text
      pure true
    else if mode == "value" then do
      d.selectByValue sel option_text
      pure true
    else if mode == "index" then do
      let i ← liftE (pyInt option_text)
      d.selectByIndex sel i
      pure true
    else
      pure false
  if dispatched then do
    let _ ← d.firstSelectedOptionText sel
    pure true
  else
    pure false

/-- The debugging enumeration in the `NoSuchElementException` handler of
`select_dropdown_option` (`src/function.py` lines 254–258). -/
def select_dropdown_enumerate (d : Driver W E S) (locator : Locator) :
    DM W Unit := do
  let el ← d.findElement locator
  let s ← d.mkSelect el
  let _ ← d.optionsTexts s
  pure ()

/-- `select_dropdown_option` (`src/function.py` lines 208–265):
`NoSuchElementException` logs the available options (failures of that
enumeration are swallowed by a bare `except`) and returns `False`; timeouts and
other exceptions return `False` directly. -/
def select_dropdown_option (d : Driver W E S) (locator : Locator)
    (option_text : String) (mode : String) (timeout : Nat) : DM W Bool :=
  tryE (select_dropdown_main d locator option_text mode timeout) fun e =>
    match e with
    | Exn.noSuchElementExn => do
        tryE (select_dropdown_enumerate d locator) fun _ => pure ()
        pure false
    | Exn.timeoutExn => pure false
    | _ => pure false

end Operations

/-! ## A concrete honest page model

A static rendered page interpreting the driver primitives with plain Selenium
semantics.  Element and select handles are represented by the locator that
found them; reading through a handle whose node has disappeared raises a
stale-element error. -/

/-- One rendered form control: its current value, interactability flags,
checked state, the synthetic events dispatched on it so far, how many clicks
registered on it, and (for `select` controls) its option labels together with
the index of the currently selected option. -/
structure FormField where
  value : String
  enabled : Bool
  readonly : Bool
  checked : Bool
  events : List String
  clicks : Nat
  options : List String
  selected : Nat
deriving Repr, DecidableEq

/-- A page: an association list from locators to rendered controls. -/
abbrev Page : Type := List (Locator × FormField)

/-- Update every control matched by `loc`. -/
def updField (p : Page) (loc : Locator) (g : FormField → FormField) : Page :=
  List.map (fun x => bif loc == x.1 then (x.1, g x.2) else x) p

/-- Read a projection of the control a handle points at; stale if gone. -/
def readF {α : Type} (el : Locator) (f : FormField → α) : DM Page α := fun p =>
  match List.lookup el p with
  | some fld => (Except.ok (f fld), p)
  | none => (Except.error Exn.staleElementRefExn, p)

/-- Mutate the control a handle points at; stale if gone. -/
def writeF (el : Locator) (g : FormField → FormField) : DM Page Unit := fun p =>
  match List.lookup el p with
  | some _ => (Except.ok (), updField p el g)
  | none => (Except.error Exn.staleElementRefExn, p)

/-- `select_by_visible_text` / `select_by_value` on the honest page (option
values are modelled by their labels): select the option if present, raise
`NoSuchElementException` otherwise. -/
def selectLabel (el : Locator) (t : String) : DM Page Unit := fun p =>
  match List.lookup el p with
  | some f =>
      if f.options.contains t then
        (Except.ok (), updField p el fun g => { g with selected := g.options.indexOf t })
      else
        (Except.error Exn.noSuchElementExn, p)
  | none => (Except.error Exn.staleElementRefExn, p)

/-- The honest page driver.  `element_to_be_clickable` requires presence and
an enabled element (Selenium: visible and enabled); `presence_of_element_located`
requires presence only; both raise `TimeoutException` when the condition never
holds.  `get_attribute("readonly")` is `"true"` for read-only controls and
`None` otherwise (truthy/falsy).  `send_keys` appends; clicks toggle the
checked state and are counted. -/
def pageDriver : Driver Page Locator Locator where
  waitOverlay := pureDM ()
  waitClickable := fun loc _ p =>
    match List.lookup loc p with
    | some f => if f.enabled then (Except.ok loc, p) else (Except.error Exn.timeoutExn, p)
    | none => (Except.error Exn.timeoutExn, p)
  waitPresent := fun loc _ p =>
    match List.lookup loc p with
    | some _ => (Except.ok loc, p)
    | none => (Except.error Exn.timeoutExn, p)
  findElement := fun loc p =>
    match List.lookup loc p with
    | some _ => (Except.ok loc, p)
    | none => (Except.error Exn.noSuchElementExn, p)
  scrollIntoView := fun _ => pureDM ()
  sleepHalf := id
  isEnabled := fun el => readF el (·.enabled)
  getAttributeReadonly := fun el => readF el fun f => if f.readonly then some "true" else none
  setReadOnlyFalse := fun el => writeF el fun f => { f with readonly := false }
  setDisabledFalse := fun el => writeF el fun f => { f with enabled := true }
  setValueJS := fun el t => writeF el fun f => { f with value := t }
  clearField := fun el => writeF el fun f => { f with value := "" }
  sendKeys := fun el t => writeF el fun f => { f with value := f.value ++ t }
  dispatchInputEvent := fun el => writeF el fun f => { f with events := f.events ++ ["input"] }
  dispatchChangeEvent := fun el => writeF el fun f => { f with events := f.events ++ ["change"] }
  click := fun el => writeF el fun f => { f with checked := !f.checked, clicks := f.clicks + 1 }
  jsClick := fun el => writeF el fun f => { f with checked := !f.checked, clicks := f.clicks + 1 }
  isSelected := fun el => readF el (·.checked)
  mkSelect := fun el => pureDM el
  selectByVisibleText := fun s t => selectLabel s t
  selectByValue := fun s t => selectLabel s t
  selectByIndex := fun s i p =>
    match List.lookup s p with
    | some f =>
        if 0 ≤ i ∧ i.toNat < f.options.length then
          (Except.ok (), updField p s fun g => { g with selected := i.toNat })
        else
          (Except.error Exn.noSuchElementExn, p)
    | none => (Except.error Exn.staleElementRefExn, p)
  firstSelectedOptionText := fun s p =>
    match List.lookup s p with
    | some f =>
        match f.options.get? f.selected with
        | some t => (Except.ok t, p)
        | none => (Except.error Exn.noSuchElementExn, p)
    | none => (Except.error Exn.staleElementRefExn, p)
  optionsTexts := fun s => readF s (·.options)

/-! ## A concrete instrumented driver

Worlds are call logs; selected primitives can be configured to raise, every
other primitive succeeds and records that it ran.  Used to exhibit concrete
runs of the operations under injected failures. -/

/-- Which injected faults the instrumented driver raises. -/
structure FaultCfg where
  overlayTimesOut : Bool
  clickableTimesOut : Bool
  enabledRaises : Bool
  clickIntercepts : Bool
  clickRaises : Bool
  presentRaises : Bool
  findRaises : Bool
  readbackRaises : Bool
deriving Repr, DecidableEq

/-- Record that a primitive ran, and return its configured outcome. -/
def logStep {α : Type} (tag : String) (r : Except Exn α) : DM (List String) α :=
  fun w => (r, w ++ [tag])

/-- The instrumented driver over call-log worlds. -/
def logDriver (cfg : FaultCfg) : Driver (List String) Unit Unit where
  waitOverlay :=
    logStep "waitOverlay" (if cfg.overlayTimesOut then Except.error Exn.timeoutExn else Except.ok ())
  waitClickable := fun _ _ =>
    logStep "waitClickable" (if cfg.clickableTimesOut then Except.error Exn.timeoutExn else Except.ok ())
  waitPresent := fun _ _ =>
    logStep "waitPresent" (if cfg.presentRaises then Except.error Exn.otherExn else Except.ok ())
  findElement := fun _ =>
    logStep "findElement" (if cfg.findRaises then Except.error Exn.staleElementRefExn else Except.ok ())
  scrollIntoView := fun _ => logStep "scroll" (Except.ok ())
  sleepHalf := id
  isEnabled := fun _ =>
    logStep "isEnabled" (if cfg.enabledRaises then Except.error Exn.staleElementRefExn else Except.ok true)
  getAttributeReadonly := fun _ => logStep "getReadonly" (Except.ok none)
  setReadOnlyFalse := fun _ => logStep "setReadOnlyFalse" (Except.ok ())
  setDisabledFalse := fun _ => logStep "setDisabledFalse" (Except.ok ())
  setValueJS := fun _ _ => logStep "setValueJS" (Except.ok ())
  clearField := fun _ => logStep "clearField" (Except.ok ())
  sendKeys := fun _ _ => logStep "sendKeys" (Except.ok ())
  dispatchInputEvent := fun _ => logStep "dispatchInput" (Except.ok ())
  dispatchChangeEvent := fun _ => logStep "dispatchChange" (Except.ok ())
  click := fun _ =>
    logStep "click"
      (if cfg.clickIntercepts then Except.error Exn.elementClickInterceptedExn
       else if cfg.clickRaises then Except.error Exn.otherExn else Except.ok ())
  jsClick := fun _ => logStep "jsClick" (Except.ok ())
  isSelected := fun _ => logStep "isSelected" (Except.ok false)
  mkSelect := fun _ => logStep "mkSelect" (Except.ok ())
  selectByVisibleText := fun _ _ => logStep "selectByVisibleText" (Except.ok ())
  selectByValue := fun _ _ => logStep "selectByValue" (Except.ok ())
  selectByIndex := fun _ _ => logStep "selectByIndex" (Except.ok ())
  firstSelectedOptionText := fun _ =>
    logStep "readback" (if cfg.readbackRaises then Except.error Exn.noSuchElementExn else Except.ok "opt")
  optionsTexts := fun _ => logStep "optionsTexts" (Except.ok [])

/-- No injected faults. -/
def faultFree : FaultCfg := ⟨false, false, false, false, false, false, false, false⟩

/-- The loading-overlay wait times out. -/
def overlayFault : FaultCfg := { faultFree with overlayTimesOut := true }

/-- The clickable wait times out. -/
def clickableFault : FaultCfg := { faultFree with clickableTimesOut := true }

/-- `is_enabled` raises a stale-element error. -/
def enabledFault : FaultCfg := { faultFree with enabledRaises := true }

/-- The standard click raises `ElementClickInterceptedException`. -/
def interceptFault : FaultCfg := { faultFree with clickIntercepts := true }

/-- The standard click raises some other unexpected exception. -/
def clickFault : FaultCfg := { faultFree with clickRaises := true }

/-- The presence wait raises an unexpected exception. -/
def presentFault : FaultCfg := { faultFree with presentRaises := true }

/-- `find_element` raises a stale-element error. -/
def findFault : FaultCfg := { faultFree with findRaises := true }

/-- `first_selected_option` raises `NoSuchElementException`. -/
def readbackFault : FaultCfg := { faultFree with readbackRaises := true }

/-! ## Basic execution lemmas -/

theorem bindDM_ok {W α β : Type} {m : DM W α} {f : α → DM W β} {w w' : W} {a : α}
    (h : m w = (Except.ok a, w')) : bindDM m f w = f a w' := by
  unfold bindDM; rw [h]

theorem bindDM_error {W α β : Type} {m : DM W α} {f : α → DM W β} {w w' : W} {e : Exn}
    (h : m w = (Except.error e, w')) : bindDM m f w = (Except.error e, w') := by
  unfold bindDM; rw [h]

theorem tryE_ok {W α : Type} {m : DM W α} {hnd : Exn → DM W α} {w w' : W} {a : α}
    (h : m w = (Except.ok a, w')) : tryE m hnd w = (Except.ok a, w') := by
  unfold tryE; rw [h]

theorem tryE_error {W α : Type} {m : DM W α} {hnd : Exn → DM W α} {w w' : W} {e : Exn}
    (h : m w = (Except.error e, w')) : tryE m hnd w = hnd e w' := by
  unfold tryE; rw [h]

theorem tryE_no_error {W α : Type} (m : DM W α) (hnd : Exn → DM W α) (w : W)
    (hh : ∀ e w', ∃ a w'', hnd e w' = (Except.ok a, w'')) :
    ∃ a w', tryE m hnd w = (Except.ok a, w') := by
  rcases hm : m w with ⟨r, w1⟩
  match r with
  | Except.ok a => exact ⟨a, w1, tryE_ok hm⟩
  | Except.error e =>
      rcases hh e w1 with ⟨a, w2, h2⟩
      exact ⟨a, w2, by rw [tryE_error hm]; exact h2⟩

/-! ## The four operations never propagate an exception -/

theorem input_text_no_error {W E S : Type} (d : Driver W E S) (loc : Locator)
    (text : String) (t : Nat) (cf : Bool) (w : W) :
    ∃ b w', input_text d loc text t cf w = (Except.ok b, w') := by
  unfold input_text
  apply tryE_no_error
  intro e w'
  cases e
  case timeoutExn => exact ⟨false, w', rfl⟩
  all_goals exact tryE_no_error _ _ w' fun e2 w2 => ⟨false, w2, rfl⟩

theorem click_element_no_error {W E S : Type} (d : Driver W E S) (loc : Locator)
    (t : Nat) (w : W) :
    ∃ b w', click_element d loc t w = (Except.ok b, w') := by
  unfold click_element
  apply tryE_no_error
  intro e w'
  cases e
  case elementClickInterceptedExn =>
    exact tryE_no_error _ _ w' fun e2 w2 => ⟨false, w2, rfl⟩
  all_goals exact ⟨false, w', rfl⟩

theorem click_checkbox_no_error {W E S : Type} (d : Driver W E S) (loc : Locator)
    (des : Bool) (t : Nat) (w : W) :
    ∃ b w', click_checkbox d loc des t w = (Except.ok b, w') := by
  unfold click_checkbox
  apply tryE_no_error
  intro e w'
  cases e <;> exact ⟨false, w', rfl⟩

theorem select_dropdown_no_error {W E S : Type} (d : Driver W E S) (loc : Locator)
    (opt mode : String) (t : Nat) (w : W) :
    ∃ b w', select_dropdown_option d loc opt mode t w = (Except.ok b, w') := by
  unfold select_dropdown_option
  apply tryE_no_error
  intro e w'
  cases e
  case noSuchElementExn =>
    rcases tryE_no_error (select_dropdown_enumerate d loc) (fun _ => pure ()) w'
        (fun e2 w2 => ⟨(), w2, rfl⟩) with ⟨u, w2, hu⟩
    refine ⟨false, w2, ?_⟩
    show (bindDM (tryE (select_dropdown_enumerate d loc) fun _ => pure ()) fun _ => pure false) w'
      = (Except.ok false, w2)
    rw [bindDM_ok hu]; rfl
  all_goals exact ⟨false, w', rfl⟩

/-! ## Step lemmas for the honest page driver -/

theorem waitOverlay_page (p : Page) :
    pageDriver.waitOverlay p = (Except.ok (), p) := rfl

theorem waitClickable_none {loc : Locator} (t : Nat) {p : Page}
    (h : List.lookup loc p = none) :
    pageDriver.waitClickable loc t p = (Except.error Exn.timeoutExn, p) := by
  show (match List.lookup loc p with
    | some f => if f.enabled then (Except.ok loc, p) else (Except.error Exn.timeoutExn, p)
    | none => (Except.error Exn.timeoutExn, p)) = _
  rw [h]

theorem waitClickable_enabled {loc : Locator} (t : Nat) {p : Page} {f : FormField}
    (h : List.lookup loc p = some f) (hen : f.enabled = true) :
    pageDriver.waitClickable loc t p = (Except.ok loc, p) := by
  show (match List.lookup loc p with
    | some f => if f.enabled then (Except.ok loc, p) else (Except.error Exn.timeoutExn, p)
    | none => (Except.error Exn.timeoutExn, p)) = _
  rw [h]
  simp [hen]

theorem waitClickable_disabled {loc : Locator} (t : Nat) {p : Page} {f : FormField}
    (h : List.lookup loc p = some f) (hen : f.enabled = false) :
    pageDriver.waitClickable loc t p = (Except.error Exn.timeoutExn, p) := by
  show (match List.lookup loc p with
    | some f => if f.enabled then (Except.ok loc, p) else (Except.error Exn.timeoutExn, p)
    | none => (Except.error Exn.timeoutExn, p)) = _
  rw [h]
  simp [hen]

theorem waitPresent_none {loc : Locator} (t : Nat) {p : Page}
    (h : List.lookup loc p = none) :
    pageDriver.waitPresent loc t p = (Except.error Exn.timeoutExn, p) := by
  show (match List.lookup loc p with
    | some _ => (Except.ok loc, p)
    | none => (Except.error Exn.timeoutExn, p)) = _
  rw [h]

theorem waitPresent_some {loc : Locator} (t : Nat) {p : Page} {f : FormField}
    (h : List.lookup loc p = some f) :
    pageDriver.waitPresent loc t p = (Except.ok loc, p) := by
  show (match List.lookup loc p with
    | some _ => (Except.ok loc, p)
    | none => (Except.error Exn.timeoutExn, p)) = _
  rw [h]

theorem findElement_some {loc : Locator} {p : Page} {f : FormField}
    (h : List.lookup loc p = some f) :
    pageDriver.findElement loc p = (Except.ok loc, p) := by
  show (match List.lookup loc p with
    | some _ => (Except.ok loc, p)
    | none => (Except.error Exn.noSuchElementExn, p)) = _
  rw [h]

theorem readF_some {α : Type} {el : Locator} {p : Page} {fld : FormField}
    (f : FormField → α) (h : List.lookup el p = some fld) :
    readF el f p = (Except.ok (f fld), p) := by
  unfold readF; rw [h]

theorem writeF_some {el : Locator} {p : Page} {fld : FormField}
    (g : FormField → FormField) (h : List.lookup el p = some fld) :
    writeF el g p = (Except.ok (), updField p el g) := by
  unfold writeF; rw [h]

theorem lookup_updField (p : Page) (loc : Locator) (g : FormField → FormField) :
    List.lookup loc (updField p loc g) = Option.map g (List.lookup loc p) := by
  induction p with
  | nil => rfl
  | cons hd tl ih =>
      obtain ⟨k, v⟩ := hd
      unfold updField at ih ⊢
      cases hbe : (loc == k) with
      | true => simp [List.lookup, hbe]
      | false => simp [List.lookup, hbe, ih]

/-! ## Behavior on a locator matching no element -/

theorem input_text_missing (loc : Locator) (text : String) (t : Nat) (cf : Bool)
    (p : Page) (h : List.lookup loc p = none) :
    input_text pageDriver loc text t cf p = (Except.ok false, p) := by
  have hmain : input_text_main pageDriver loc text t cf p = (Except.error Exn.timeoutExn, p) := by
    unfold input_text_main
    simp only [bind_apply, bindDM_ok (waitOverlay_page p), bindDM_error (waitClickable_none t h)]
  unfold input_text
  rw [tryE_error hmain]
  rfl

theorem click_element_missing (loc : Locator) (t : Nat) (p : Page)
    (h : List.lookup loc p = none) :
    click_element pageDriver loc t p = (Except.ok false, p) := by
  have hmain : click_element_main pageDriver loc t p = (Except.error Exn.timeoutExn, p) := by
    unfold click_element_main
    simp only [bind_apply, bindDM_ok (waitOverlay_page p), bindDM_error (waitClickable_none t h)]
  unfold click_element
  rw [tryE_error hmain]
  rfl

theorem click_checkbox_missing (loc : Locator) (des : Bool) (t : Nat) (p : Page)
    (h : List.lookup loc p = none) :
    click_checkbox pageDriver loc des t p = (Except.ok false, p) := by
  have hmain : click_checkbox_main pageDriver loc des t p = (Except.error Exn.timeoutExn, p) := by
    unfold click_checkbox_main
    simp only [bind_apply, bindDM_error (waitPresent_none t h)]
  unfold click_checkbox
  rw [tryE_error hmain]
  rfl

theorem select_dropdown_missing (loc : Locator) (opt mode : String) (t : Nat) (p : Page)
    (h : List.lookup loc p = none) :
    select_dropdown_option pageDriver loc opt mode t p = (Except.ok false, p) := by
  have hmain : select_dropdown_main pageDriver loc opt mode t p = (Except.error Exn.timeoutExn, p) := by
    unfold select_dropdown_main
    simp only [bind_apply, bindDM_error (waitPresent_none t h)]
  unfold select_dropdown_option
  rw [tryE_error hmain]
  rfl

/-- C1: every one of the four operations, for every driver, world, locator and
argument values, terminates with a boolean outcome and never propagates an
exception to its caller; in particular, on the honest page driver, a locator
matching no element makes each operation return `false` (via the caught wait
timeout) with the page unchanged. -/
theorem C1_every_operation_returns_bool {W E S : Type} (d : Driver W E S)
    (loc : Locator) (text opt mode : String) (t : Nat) (cf des : Bool) (w : W)
    (page : Page) :
    (∃ b w', input_text d loc text t cf w = (Except.ok b, w')) ∧
    (∃ b w', click_element d loc t w = (Except.ok b, w')) ∧
    (∃ b w', click_checkbox d loc des t w = (Except.ok b, w')) ∧
    (∃ b w', select_dropdown_option d loc opt mode t w = (Except.ok b, w')) ∧
    (List.lookup loc page = none →
      input_text pageDriver loc text t cf page = (Except.ok false, page) ∧
      click_element pageDriver loc t page = (Except.ok false, page) ∧
      click_checkbox pageDriver loc des t page = (Except.ok false, page) ∧
      select_dropdown_option pageDriver loc opt mode t page = (Except.ok false, page)) :=
  ⟨input_text_no_error d loc text t cf w,
   click_element_no_error d loc t w,
   click_checkbox_no_error d loc des t w,
   select_dropdown_no_error d loc opt mode t w,
   fun h =>
     ⟨input_text_missing loc text t cf page h,
      click_element_missing loc t page h,
      click_checkbox_missing loc des t page h,
      select_dropdown_missing loc opt mode t page h⟩⟩

/-- Witness for C1 at a concrete empty page: the locator matches no element and
all four operations return `false` without raising. -/
theorem C1_every_operation_returns_bool_witness :
    input_text pageDriver ("id", "missing") "x" 15 true [] = (Except.ok false, []) ∧
    click_element pageDriver ("id", "missing") 15 [] = (Except.ok false, []) ∧
    click_checkbox pageDriver ("id", "missing") true 15 [] = (Except.ok false, []) ∧
    select_dropdown_option pageDriver ("id", "missing") "France" "visible_text" 15 []
      = (Except.ok false, []) :=
  (C1_every_operation_returns_bool pageDriver ("id", "missing") "x" "France"
    "visible_text" 15 true true ([] : Page) ([] : Page)).2.2.2.2 rfl

/-- C2 counterexample: on a driver where the overlay never becomes invisible
(the bounded overlay sub-wait raises `TimeoutException`) and every later
primitive would succeed, `input_text` returns `false` at once; the call log
shows the element wait and all later steps never ran, so the operation did not
proceed past the overlay sub-wait. -/
theorem C2_counterexample :
    input_text (logDriver overlayFault) ("id", "email") "a@b.com" 15 true []
      = (Except.ok false, ["waitOverlay"]) ∧
    "waitClickable" ∉ (input_text (logDriver overlayFault) ("id", "email") "a@b.com" 15 true []).2 := by
  constructor
  · rfl
  · decide

/-- C2 (amended): the loading-overlay wait at the start of Text Input and
Element Click is fatal, not advisory: for every driver and world in which that
bounded sub-wait raises its timeout, both operations return `false`
immediately, from the world the sub-wait left, without running any remaining
step. -/
theorem C2_overlay_timeout_is_fatal {W E S : Type} (d : Driver W E S)
    (loc : Locator) (text : String) (t : Nat) (cf : Bool) (w w1 : W)
    (h : d.waitOverlay w = (Except.error Exn.timeoutExn, w1)) :
    input_text d loc text t cf w = (Except.ok false, w1) ∧
    click_element d loc t w = (Except.ok false, w1) := by
  constructor
  · have hmain : input_text_main d loc text t cf w = (Except.error Exn.timeoutExn, w1) := by
      unfold input_text_main
      simp only [bind_apply, bindDM_error h]
    unfold input_text
    rw [tryE_error hmain]
    rfl
  · have hmain : click_element_main d loc t w = (Except.error Exn.timeoutExn, w1) := by
      unfold click_element_main
      simp only [bind_apply, bindDM_error h]
    unfold click_element
    rw [tryE_error hmain]
    rfl

/-- Witness for the amended C2 at a concrete instrumented driver. -/
theorem C2_overlay_timeout_is_fatal_witness :
    input_text (logDriver overlayFault) ("id", "name") "x" 15 true []
      = (Except.ok false, ["waitOverlay"]) ∧
    click_element (logDriver overlayFault) ("id", "name") 15 []
      = (Except.ok false, ["waitOverlay"]) :=
  C2_overlay_timeout_is_fatal (logDriver overlayFault) ("id", "name") "x" 15 true
    [] ["waitOverlay"] rfl

/-- C3 counterexample: the element wait (step 2) raising `TimeoutException` is
an exception during steps 1–6, yet `input_text` returns `false` with no
fallback attempt: the call log shows `find_element` never ran, although the
fallback would have succeeded on this driver (third conjunct). -/
theorem C3_counterexample :
    input_text (logDriver clickableFault) ("id", "field") "x" 15 true []
      = (Except.ok false, ["waitOverlay", "waitClickable"]) ∧
    "findElement" ∉ (input_text (logDriver clickableFault) ("id", "field") "x" 15 true []).2 ∧
    input_text_fallback (logDriver clickableFault) ("id", "field") "x"
        ["waitOverlay", "waitClickable"]
      = (Except.ok true,
         ["waitOverlay", "waitClickable", "findElement", "setValueJS", "dispatchInput"]) := by
  refine ⟨rfl, by decide, rfl⟩

/-- C3 (amended): for every exception raised during steps 1–6 of Text Input
other than the wait timeout, the operation attempts exactly one last-resort
fallback (re-locate, force-set the value, fire an `input` notification), whose
success yields `true` and whose own failure yields `false`; the wait timeout
instead returns `false` directly with no fallback; and no such value-setting
last-resort fallback exists in the other three operations — a generic
exception there returns `false` from the world the exception left, with no
further action (Element Click excepting only its interception fallback, and
Dropdown Selection excepting only its option-enumeration logging on
`NoSuchElementException`). -/
theorem C3_last_resort_fallback_scope {W E S : Type} (d : Driver W E S)
    (loc : Locator) (text opt mode : String) (t : Nat) (cf des : Bool)
    (w w1 : W) (e : Exn) :
    (input_text_main d loc text t cf w = (Except.error e, w1) → e ≠ Exn.timeoutExn →
      input_text d loc text t cf w
        = tryE (input_text_fallback d loc text) (fun _ => pure false) w1) ∧
    (∀ b w2, input_text_fallback d loc text w1 = (Except.ok b, w2) →
      tryE (input_text_fallback d loc text) (fun _ => pure false) w1 = (Except.ok b, w2)) ∧
    (∀ e2 w2, input_text_fallback d loc text w1 = (Except.error e2, w2) →
      tryE (input_text_fallback d loc text) (fun _ => pure false) w1 = (Except.ok false, w2)) ∧
    (input_text_main d loc text t cf w = (Except.error Exn.timeoutExn, w1) →
      input_text d loc text t cf w = (Except.ok false, w1)) ∧
    (click_element_main d loc t w = (Except.error e, w1) →
      e ≠ Exn.elementClickInterceptedExn →
      click_element d loc t w = (Except.ok false, w1)) ∧
    (click_checkbox_main d loc des t w = (Except.error e, w1) →
      click_checkbox d loc des t w = (Except.ok false, w1)) ∧
    (select_dropdown_main d loc opt mode t w = (Except.error e, w1) →
      e ≠ Exn.noSuchElementExn →
      select_dropdown_option d loc opt mode t w = (Except.ok false, w1)) := by
  refine ⟨?_, ?_, ?_, ?_, ?_, ?_, ?_⟩
  · intro hm hne
    unfold input_text
    rw [tryE_error hm]
    cases e
    case timeoutExn => exact absurd rfl hne
    all_goals rfl
  · intro b w2 hfb
    exact tryE_ok hfb
  · intro e2 w2 hfb
    rw [tryE_error hfb]
    rfl
  · intro hm
    unfold input_text
    rw [tryE_error hm]
    rfl
  · intro hm hne
    unfold click_element
    rw [tryE_error hm]
    cases e
    case elementClickInterceptedExn => exact absurd rfl hne
    all_goals rfl
  · intro hm
    unfold click_checkbox
    rw [tryE_error hm]
    cases e <;> rfl
  · intro hm hne
    unfold select_dropdown_option
    rw [tryE_error hm]
    cases e
    case noSuchElementExn => exact absurd rfl hne
    all_goals rfl

/-- Witness for the amended C3: a stale-element error at step 4 (the enabled
check) triggers the fallback, which succeeds, so `input_text` returns `true`;
the same class of error makes the other operations return `false` with no
further action. -/
theorem C3_last_resort_fallback_scope_witness :
    input_text (logDriver enabledFault) ("id", "f") "x" 15 true []
      = (Except.ok true,
         ["waitOverlay", "waitClickable", "scroll", "isEnabled",
          "findElement", "setValueJS", "dispatchInput"]) ∧
    click_element (logDriver clickFault) ("id", "f") 15 []
      = (Except.ok false, ["waitOverlay", "waitClickable", "scroll", "click"]) ∧
    click_checkbox (logDriver presentFault) ("id", "f") true 15 []
      = (Except.ok false, ["waitPresent"]) ∧
    select_dropdown_option (logDriver presentFault) ("id", "f") "France" "visible_text" 15 []
      = (Except.ok false, ["waitPresent"]) := by
  have hin := (C3_last_resort_fallback_scope (logDriver enabledFault) ("id", "f")
    "x" "France" "visible_text" 15 true true []
    ["waitOverlay", "waitClickable", "scroll", "isEnabled"] Exn.staleElementRefExn)
  have h1 := hin.1 rfl (by decide)
  have h2 := hin.2.1 true
    ["waitOverlay", "waitClickable", "scroll", "isEnabled",
     "findElement", "setValueJS", "dispatchInput"] rfl
  have hce := (C3_last_resort_fallback_scope (logDriver clickFault) ("id", "f")
    "x" "France" "visible_text" 15 true true []
    ["waitOverlay", "waitClickable", "scroll", "click"] Exn.otherExn).2.2.2.2.1
    rfl (by decide)
  have hcc := (C3_last_resort_fallback_scope (logDriver presentFault) ("id", "f")
    "x" "France" "visible_text" 15 true true [] ["waitPresent"] Exn.otherExn).2.2.2.2.2.1 rfl
  have hsd := (C3_last_resort_fallback_scope (logDriver presentFault) ("id", "f")
    "x" "France" "visible_text" 15 true true [] ["waitPresent"] Exn.otherExn).2.2.2.2.2.2
    rfl (by decide)
  exact ⟨by rw [h1]; exact h2, hce, hcc, hsd⟩

/-- C6: Element Click attempts the forced (hit-test-bypassing) click only when
the standard path fails with the specific click-intercepted error, and then it
first re-locates the element; any other failure (timeout included) returns
`false` from the world the exception left, with no forced-click attempt.  On
interception: if the re-location fails the call returns `false`; otherwise the
forced click runs on the fresh element and decides the outcome. -/
theorem C6_forced_click_only_on_interception {W E S : Type} (d : Driver W E S)
    (loc : Locator) (t : Nat) (w w1 : W) (e : Exn) :
    (click_element_main d loc t w = (Except.error e, w1) →
      e ≠ Exn.elementClickInterceptedExn →
      click_element d loc t w = (Except.ok false, w1)) ∧
    (click_element_main d loc t w
        = (Except.error Exn.elementClickInterceptedExn, w1) →
      (∀ e2 w2, d.findElement loc w1 = (Except.error e2, w2) →
        click_element d loc t w = (Except.ok false, w2)) ∧
      (∀ el w2 w3, d.findElement loc w1 = (Except.ok el, w2) →
        d.jsClick el w2 = (Except.ok (), w3) →
        click_element d loc t w = (Except.ok true, w3)) ∧
      (∀ el w2 e2 w3, d.findElement loc w1 = (Except.ok el, w2) →
        d.jsClick el w2 = (Except.error e2, w3) →
        click_element d loc t w = (Except.ok false, w3))) := by
  constructor
  · intro hm hne
    unfold click_element
    rw [tryE_error hm]
    cases e
    case elementClickInterceptedExn => exact absurd rfl hne
    all_goals rfl
  · intro hm
    refine ⟨?_, ?_, ?_⟩
    · intro e2 w2 hfe
      have hfb : click_element_fallback d loc w1 = (Except.error e2, w2) := by
        unfold click_element_fallback
        simp only [bind_apply, bindDM_error hfe]
      unfold click_element
      rw [tryE_error hm]
      show tryE (click_element_fallback d loc) (fun _ => pure false) w1 = _
      rw [tryE_error hfb]
      rfl
    · intro el w2 w3 hfe hjs
      have hfb : click_element_fallback d loc w1 = (Except.ok true, w3) := by
        unfold click_element_fallback
        simp only [bind_apply, bindDM_ok hfe, bindDM_ok hjs, pure_apply, pureDM_apply]
      unfold click_element
      rw [tryE_error hm]
      show tryE (click_element_fallback d loc) (fun _ => pure false) w1 = _
      rw [tryE_ok hfb]
    · intro el w2 e2 w3 hfe hjs
      have hfb : click_element_fallback d loc w1 = (Except.error e2, w3) := by
        unfold click_element_fallback
        simp only [bind_apply, bindDM_ok hfe, bindDM_error hjs]
      unfold click_element
      rw [tryE_error hm]
      show tryE (click_element_fallback d loc) (fun _ => pure false) w1 = _
      rw [tryE_error hfb]
      rfl

/-- Witness for C6: on a driver whose standard click is intercepted, the
fallback re-locates and force-clicks, so `click_element` returns `true`; on a
driver whose click fails for another reason, it returns `false` with no
fallback call in the log. -/
theorem C6_forced_click_only_on_interception_witness :
    click_element (logDriver interceptFault) ("id", "btn") 15 []
      = (Except.ok true,
         ["waitOverlay", "waitClickable", "scroll", "click", "findElement", "jsClick"]) ∧
    click_element (logDriver clickFault) ("id", "btn") 15 []
      = (Except.ok false, ["waitOverlay", "waitClickable", "scroll", "click"]) := by
  have hic := ((C6_forced_click_only_on_interception (logDriver interceptFault)
    ("id", "btn") 15 [] ["waitOverlay", "waitClickable", "scroll", "click"]
    Exn.elementClickInterceptedExn).2 rfl).2.1 ()
    ["waitOverlay", "waitClickable", "scroll", "click", "findElement"]
    ["waitOverlay", "waitClickable", "scroll", "click", "findElement", "jsClick"] rfl rfl
  have hot := (C6_forced_click_only_on_interception (logDriver clickFault)
    ("id", "btn") 15 [] ["waitOverlay", "waitClickable", "scroll", "click"]
    Exn.otherExn).1 rfl (by decide)
  exact ⟨hic, hot⟩

/-! ## Honest-page execution lemmas -/

theorem scroll_page (el : Locator) (p : Page) :
    pageDriver.scrollIntoView el p = (Except.ok (), p) := rfl

theorem sleep_page (p : Page) :
    stepSleep pageDriver.sleepHalf p = (Except.ok (), p) := rfl

theorem string_empty_append (s : String) : "" ++ s = s := rfl

theorem updField_updField (p : Page) (loc : Locator) (g h : FormField → FormField) :
    updField (updField p loc g) loc h = updField p loc fun x => h (g x) := by
  unfold updField
  rw [List.map_map]
  apply List.map_congr_left
  intro x _
  cases hbe : loc == x.1 with
  | true => simp [Function.comp, hbe]
  | false => simp [Function.comp, hbe]

theorem bindDM_pureDM {W α β : Type} (a : α) (f : α → DM W β) :
    bindDM (pureDM a) f = f a := rfl

/-- C4: on the honest page, for every locator pointing to a present, enabled,
writable (not read-only) field, Text Input (with its default clearing
behavior) ends with the field's value equal to exactly the given string, with
synthetic `input` and `change` notifications dispatched on the element, and
returns `true`. -/
theorem C4_input_text_sets_value_and_fires_events (page : Page) (loc : Locator)
    (f : FormField) (text : String) (t : Nat)
    (hf : List.lookup loc page = some f) (hen : f.enabled = true)
    (hro : f.readonly = false) :
    ∃ p', input_text pageDriver loc text t true page = (Except.ok true, p') ∧
      List.lookup loc p' = some
        { f with value := text, events := f.events ++ ["input", "change"] } := by
  have hWc := waitClickable_enabled t hf hen
  have hEn : pageDriver.isEnabled loc page = (Except.ok true, page) := by
    show readF loc (·.enabled) page = _
    rw [readF_some _ hf, hen]
  have hRo : pageDriver.getAttributeReadonly loc page = (Except.ok none, page) := by
    show readF loc (fun x => if x.readonly then some "true" else none) page = _
    rw [readF_some _ hf]
    simp [hro]
  have hClr : pageDriver.clearField loc page
      = (Except.ok (), updField page loc fun x => { x with value := "" }) := by
    show writeF loc _ page = _
    exact writeF_some _ hf
  have hf1 : List.lookup loc (updField page loc fun x => { x with value := "" })
      = some { f with value := "" } := by
    rw [lookup_updField, hf]; rfl
  have hSk : pageDriver.sendKeys loc text (updField page loc fun x => { x with value := "" })
      = (Except.ok (), updField page loc fun x => { x with value := "" ++ text }) := by
    show writeF loc _ _ = _
    rw [writeF_some _ hf1, updField_updField]
  have hf2 : List.lookup loc (updField page loc fun x => { x with value := "" ++ text })
      = some { f with value := "" ++ text } := by
    rw [lookup_updField, hf]; rfl
  have hDi : pageDriver.dispatchInputEvent loc
        (updField page loc fun x => { x with value := "" ++ text })
      = (Except.ok (), updField page loc fun x =>
          { x with value := "" ++ text, events := x.events ++ ["input"] }) := by
    show writeF loc _ _ = _
    rw [writeF_some _ hf2, updField_updField]
  have hf3 : List.lookup loc (updField page loc fun x =>
        { x with value := "" ++ text, events := x.events ++ ["input"] })
      = some { f with value := "" ++ text, events := f.events ++ ["input"] } := by
    rw [lookup_updField, hf]; rfl
  have hDc : pageDriver.dispatchChangeEvent loc
        (updField page loc fun x =>
          { x with value := "" ++ text, events := x.events ++ ["input"] })
      = (Except.ok (), updField page loc fun x =>
          { x with value := "" ++ text, events := (x.events ++ ["input"]) ++ ["change"] }) := by
    show writeF loc _ _ = _
    rw [writeF_some _ hf3, updField_updField]
  have hmain : input_text_main pageDriver loc text t true page
      = (Except.ok true, updField page loc fun x =>
          { x with value := "" ++ text, events := (x.events ++ ["input"]) ++ ["change"] }) := by
    unfold input_text_main
    simp only [bind_apply, bindDM_pureDM, pure_apply, pureDM_apply, pyTruthy,
      bindDM_ok (waitOverlay_page page), bindDM_ok hWc, bindDM_ok (scroll_page loc page),
      bindDM_ok (sleep_page page), bindDM_ok hEn, bindDM_ok hRo,
      bindDM_ok hClr, bindDM_ok hSk, bindDM_ok hDi, bindDM_ok hDc,
      Bool.not_true, Bool.false_eq_true, if_false, if_true]
  refine ⟨_, tryE_ok hmain, ?_⟩
  rw [lookup_updField, hf]
  show some _ = some _
  rw [Option.some_inj]
  show ({ f with value := "" ++ text, events := (f.events ++ ["input"]) ++ ["change"] } : FormField) = _
  rw [string_empty_append, List.append_assoc]
  rfl

/-- Witness for C4 on a concrete one-field page. -/
theorem C4_input_text_sets_value_and_fires_events_witness :
    ∃ p' : Page, input_text pageDriver ("id", "email") "a@b.com" 15 true
        [(("id", "email"), ⟨"", true, false, false, [], 0, [], 0⟩)] = (Except.ok true, p') ∧
      List.lookup ("id", "email") p'
        = some ⟨"a@b.com", true, false, false, ["input", "change"], 0, [], 0⟩ :=
  C4_input_text_sets_value_and_fires_events
    [(("id", "email"), ⟨"", true, false, false, [], 0, [], 0⟩)] ("id", "email")
    ⟨"", true, false, false, [], 0, [], 0⟩ "a@b.com" 15 (by decide) rfl rfl

/-- C5 counterexample: on a present but genuinely disabled field, Text Input
does not take the force path: the clickable wait times out (a disabled element
is never clickable), the call returns `false`, and the field still holds its
old value, with its disabled flag intact. -/
theorem C5_counterexample :
    input_text pageDriver ("id", "f") "hello" 15 true
        [(("id", "f"), ⟨"", false, false, false, [], 0, [], 0⟩)]
      = (Except.ok false, [(("id", "f"), ⟨"", false, false, false, [], 0, [], 0⟩)]) ∧
    (List.lookup ("id", "f")
        ([(("id", "f"), ⟨"", false, false, false, [], 0, [], 0⟩)] : Page)).map
        (fun x => x.value) = some "" := by
  constructor
  · rfl
  · rfl

/-- C5 (amended): the force path is reachable only for fields that pass the
clickable wait.  For a present, enabled but read-only field, Text Input takes
the force path: the field ends holding exactly the given value, its read-only
and disabled flags are cleared as a side effect, both notifications fire, and
the call returns `true`.  For a present but disabled field, the clickable wait
times out and the call returns `false` with the page unchanged. -/
theorem C5_force_path_requires_enabled (page : Page) (loc : Locator)
    (f : FormField) (text : String) (t : Nat)
    (hf : List.lookup loc page = some f) :
    (f.enabled = true → f.readonly = true →
      ∃ p', input_text pageDriver loc text t true page = (Except.ok true, p') ∧
        List.lookup loc p' = some
          { f with value := text, readonly := false, enabled := true,
                   events := f.events ++ ["input", "change"] }) ∧
    (f.enabled = false →
      input_text pageDriver loc text t true page = (Except.ok false, page)) := by
  constructor
  · intro hen hro
    have hWc := waitClickable_enabled t hf hen
    have hEn : pageDriver.isEnabled loc page = (Except.ok true, page) := by
      show readF loc (·.enabled) page = _
      rw [readF_some _ hf, hen]
    have hRo : pageDriver.getAttributeReadonly loc page = (Except.ok (some "true"), page) := by
      show readF loc (fun x => if x.readonly then some "true" else none) page = _
      rw [readF_some _ hf]
      simp [hro]
    have hpt : (!String.isEmpty "true") = true := by decide
    have hSrf : pageDriver.setReadOnlyFalse loc page
        = (Except.ok (), updField page loc fun x => { x with readonly := false }) := by
      show writeF loc _ page = _
      exact writeF_some _ hf
    have hg1 : List.lookup loc (updField page loc fun x => { x with readonly := false })
        = some { f with readonly := false } := by
      rw [lookup_updField, hf]; rfl
    have hSdf : pageDriver.setDisabledFalse loc
          (updField page loc fun x => { x with readonly := false })
        = (Except.ok (), updField page loc fun x =>
            { x with readonly := false, enabled := true }) := by
      show writeF loc _ _ = _
      rw [writeF_some _ hg1, updField_updField]
    have hg2 : List.lookup loc (updField page loc fun x =>
          { x with readonly := false, enabled := true })
        = some { f with readonly := false, enabled := true } := by
      rw [lookup_updField, hf]; rfl
    have hSv : pageDriver.setValueJS loc text
          (updField page loc fun x => { x with readonly := false, enabled := true })
        = (Except.ok (), updField page loc fun x =>
            { x with readonly := false, enabled := true, value := text }) := by
      show writeF loc _ _ = _
      rw [writeF_some _ hg2, updField_updField]
    have hg3 : List.lookup loc (updField page loc fun x =>
          { x with readonly := false, enabled := true, value := text })
        = some { f with readonly := false, enabled := true, value := text } := by
      rw [lookup_updField, hf]; rfl
    have hDi : pageDriver.dispatchInputEvent loc
          (updField page loc fun x =>
            { x with readonly := false, enabled := true, value := text })
        = (Except.ok (), updField page loc fun x =>
            { x with readonly := false, enabled := true, value := text,
                     events := x.events ++ ["input"] }) := by
      show writeF loc _ _ = _
      rw [writeF_some _ hg3, updField_updField]
    have hg4 : List.lookup loc (updField page loc fun x =>
          { x with readonly := false, enabled := true, value := text,
                   events := x.events ++ ["input"] })
        = some { f with readonly := false, enabled := true, value := text,
                        events := f.events ++ ["input"] } := by
      rw [lookup_updField, hf]; rfl
    have hDc : pageDriver.dispatchChangeEvent loc
          (updField page loc fun x =>
            { x with readonly := false, enabled := true, value := text,
                     events := x.events ++ ["input"] })
        = (Except.ok (), updField page loc fun x =>
            { x with readonly := false, enabled := true, value := text,
                     events := (x.events ++ ["input"]) ++ ["change"] }) := by
      show writeF loc _ _ = _
      rw [writeF_some _ hg4, updField_updField]
    have hmain : input_text_main pageDriver loc text t true page
        = (Except.ok true, updField page loc fun x =>
            { x with readonly := false, enabled := true, value := text,
                     events := (x.events ++ ["input"]) ++ ["change"] }) := by
      unfold input_text_main
      simp only [bind_apply, bindDM_pureDM, pure_apply, pureDM_apply, pyTruthy,
        bindDM_ok (waitOverlay_page page), bindDM_ok hWc, bindDM_ok (scroll_page loc page),
        bindDM_ok (sleep_page page), bindDM_ok hEn, bindDM_ok hRo,
        bindDM_ok hSrf, bindDM_ok hSdf, bindDM_ok hSv, bindDM_ok hDi, bindDM_ok hDc,
        hpt, Bool.not_true, Bool.false_eq_true, if_false, if_true, eq_self_iff_true]
    refine ⟨_, tryE_ok hmain, ?_⟩
    rw [lookup_updField, hf]
    show some _ = some _
    rw [Option.some_inj]
    simp [List.append_assoc]
  · intro hen2
    have hWc := waitClickable_disabled t hf hen2
    have hmain : input_text_main pageDriver loc text t true page
        = (Except.error Exn.timeoutExn, page) := by
      unfold input_text_main
      simp only [bind_apply, bindDM_ok (waitOverlay_page page), bindDM_error hWc]
    unfold input_text
    rw [tryE_error hmain]
    rfl

/-- Witness for the amended C5 on a concrete read-only field. -/
theorem C5_force_path_requires_enabled_witness :
    ∃ p' : Page, input_text pageDriver ("id", "g") "v" 15 true
        [(("id", "g"), ⟨"old", true, true, false, [], 0, [], 0⟩)] = (Except.ok true, p') ∧
      List.lookup ("id", "g") p'
        = some ⟨"v", true, false, false, ["input", "change"], 0, [], 0⟩ :=
  (C5_force_path_requires_enabled
    [(("id", "g"), ⟨"old", true, true, false, [], 0, [], 0⟩)] ("id", "g")
    ⟨"old", true, true, false, [], 0, [], 0⟩ "v" 15 (by decide)).1 rfl rfl

/-- On the honest page, a checkbox already in the desired state is verified
without any click and the call returns `true` with the page unchanged. -/
theorem click_checkbox_noop (page : Page) (loc : Locator) (f : FormField)
    (des : Bool) (t : Nat) (hf : List.lookup loc page = some f)
    (hch : f.checked = des) :
    click_checkbox pageDriver loc des t page = (Except.ok true, page) := by
  have hWp := waitPresent_some t hf
  have hSel : pageDriver.isSelected loc page = (Except.ok des, page) := by
    show readF loc (·.checked) page = _
    rw [readF_some _ hf, hch]
  have hFe := findElement_some hf
  have hmain : click_checkbox_main pageDriver loc des t page = (Except.ok true, page) := by
    unfold click_checkbox_main
    simp only [bind_apply, bindDM_pureDM, pure_apply, pureDM_apply,
      bindDM_ok hWp, bindDM_ok (scroll_page loc page), bindDM_ok (sleep_page page),
      bindDM_ok hSel, bindDM_ok hFe, bne_self_eq_false, Bool.false_eq_true, if_false,
      eq_self_iff_true, if_true, beq_self_eq_true]
  exact tryE_ok hmain

/-- On the honest page, a present, enabled checkbox in the wrong state receives
exactly one click (toggling it), passes the fresh verification and returns
`true`. -/
theorem click_checkbox_flip (page : Page) (loc : Locator) (f : FormField)
    (des : Bool) (t : Nat) (hf : List.lookup loc page = some f)
    (hen : f.enabled = true) (hch : f.checked ≠ des) :
    click_checkbox pageDriver loc des t page
      = (Except.ok true,
         updField page loc fun x => { x with checked := !x.checked, clicks := x.clicks + 1 }) := by
  have hWp := waitPresent_some t hf
  have hSel : pageDriver.isSelected loc page = (Except.ok f.checked, page) := by
    show readF loc (·.checked) page = _
    rw [readF_some _ hf]
  have hne' : (f.checked != des) = true := by
    cases hc : f.checked <;> cases hd : des <;> simp_all
  have hClick : pageDriver.click loc page
      = (Except.ok (), updField page loc fun x =>
          { x with checked := !x.checked, clicks := x.clicks + 1 }) := by
    show writeF loc _ page = _
    exact writeF_some _ hf
  have hcem : click_element_main pageDriver loc t page
      = (Except.ok true, updField page loc fun x =>
          { x with checked := !x.checked, clicks := x.clicks + 1 }) := by
    unfold click_element_main
    simp only [bind_apply, bindDM_pureDM, pure_apply, pureDM_apply,
      bindDM_ok (waitOverlay_page page), bindDM_ok (waitClickable_enabled t hf hen),
      bindDM_ok (scroll_page loc page), bindDM_ok (sleep_page page), bindDM_ok hClick]
  have hce : click_element pageDriver loc t page
      = (Except.ok true, updField page loc fun x =>
          { x with checked := !x.checked, clicks := x.clicks + 1 }) := by
    unfold click_element
    exact tryE_ok hcem
  have hp1 : List.lookup loc (updField page loc fun x =>
        { x with checked := !x.checked, clicks := x.clicks + 1 })
      = some { f with checked := !f.checked, clicks := f.clicks + 1 } := by
    rw [lookup_updField, hf]; rfl
  have hFe1 := findElement_some hp1
  have hSel1 : pageDriver.isSelected loc (updField page loc fun x =>
        { x with checked := !x.checked, clicks := x.clicks + 1 })
      = (Except.ok (!f.checked), updField page loc fun x =>
          { x with checked := !x.checked, clicks := x.clicks + 1 }) := by
    show readF loc (·.checked) _ = _
    exact readF_some _ hp1
  have hfinal : ((!f.checked) == des) = true := by
    cases hc : f.checked <;> cases hd : des <;> simp_all
  have hmain : click_checkbox_main pageDriver loc des t page
      = (Except.ok true, updField page loc fun x =>
          { x with checked := !x.checked, clicks := x.clicks + 1 }) := by
    unfold click_checkbox_main
    simp only [bind_apply, bindDM_pureDM, pure_apply, pureDM_apply,
      bindDM_ok hWp, bindDM_ok (scroll_page loc page), bindDM_ok (sleep_page page),
      bindDM_ok hSel, hne', eq_self_iff_true, if_true, bindDM_ok hce,
      bindDM_ok hFe1, bindDM_ok hSel1, hfinal]
  unfold click_checkbox
  exact tryE_ok hmain

/-- C7: Checkbox Toggle is idempotent on the honest page.  A call whose
control is already in the desired state performs zero clicks (the page is
returned unchanged), and two consecutive calls with the same desired state
perform at most one click in total, with the final observed state equal to the
desired state after each call. -/
theorem C7_checkbox_idempotent (page : Page) (loc : Locator) (f : FormField)
    (des : Bool) (t : Nat)
    (hf : List.lookup loc page = some f) (hen : f.enabled = true) :
    (f.checked = des → click_checkbox pageDriver loc des t page = (Except.ok true, page)) ∧
    (∃ p1 p2 : Page, ∃ g1 g2 : FormField,
      click_checkbox pageDriver loc des t page = (Except.ok true, p1) ∧
      click_checkbox pageDriver loc des t p1 = (Except.ok true, p2) ∧
      List.lookup loc p1 = some g1 ∧ g1.checked = des ∧
      List.lookup loc p2 = some g2 ∧ g2.checked = des ∧
      g2.clicks ≤ f.clicks + 1) := by
  constructor
  · exact fun hch => click_checkbox_noop page loc f des t hf hch
  · by_cases hch : f.checked = des
    · exact ⟨page, page, f, f, click_checkbox_noop page loc f des t hf hch,
        click_checkbox_noop page loc f des t hf hch, hf, hch, hf, hch, Nat.le_succ _⟩
    · have hflip := click_checkbox_flip page loc f des t hf hen hch
      have hp1 : List.lookup loc (updField page loc fun x =>
            { x with checked := !x.checked, clicks := x.clicks + 1 })
          = some { f with checked := !f.checked, clicks := f.clicks + 1 } := by
        rw [lookup_updField, hf]; rfl
      have hbd : (!f.checked) = des := by
        cases hc : f.checked <;> cases hd : des <;> simp_all
      have hsecond := click_checkbox_noop _ loc _ des t hp1 hbd
      exact ⟨_, _, _, _, hflip, hsecond, hp1, hbd, hp1, hbd, Nat.le_refl _⟩

/-- Witness for C7 on a concrete unchecked checkbox with desired state
`true`: the first call clicks once, the second call clicks zero times. -/
theorem C7_checkbox_idempotent_witness :
    ((⟨"", true, false, false, [], 0, [], 0⟩ : FormField).checked = true →
      click_checkbox pageDriver ("id", "agree") true 15
          [(("id", "agree"), ⟨"", true, false, false, [], 0, [], 0⟩)]
        = (Except.ok true, [(("id", "agree"), ⟨"", true, false, false, [], 0, [], 0⟩)])) ∧
    (∃ p1 p2 : Page, ∃ g1 g2 : FormField,
      click_checkbox pageDriver ("id", "agree") true 15
          [(("id", "agree"), ⟨"", true, false, false, [], 0, [], 0⟩)]
        = (Except.ok true, p1) ∧
      click_checkbox pageDriver ("id", "agree") true 15 p1 = (Except.ok true, p2) ∧
      List.lookup ("id", "agree") p1 = some g1 ∧ g1.checked = true ∧
      List.lookup ("id", "agree") p2 = some g2 ∧ g2.checked = true ∧
      g2.clicks ≤ (⟨"", true, false, false, [], 0, [], 0⟩ : FormField).clicks + 1) :=
  C7_checkbox_idempotent
    [(("id", "agree"), ⟨"", true, false, false, [], 0, [], 0⟩)] ("id", "agree")
    ⟨"", true, false, false, [], 0, [], 0⟩ true 15 (by decide) rfl

theorem stepSleep_apply {W : Type} (f : W → W) (w : W) :
    stepSleep f w = (Except.ok (), f w) := rfl

/-- C8: for every driver, after the click (or no-op) Checkbox Toggle re-reads
the checked state through a fresh `find_element` and returns `true` exactly
when that fresh state equals the desired state; and whenever the delegated
Element Click reports failure, Checkbox Toggle returns `false` immediately,
from the world Element Click left, performing no final verification. -/
theorem C8_checkbox_fresh_verification {W E S : Type} (d : Driver W E S)
    (loc : Locator) (des : Bool) (t : Nat) (w w1 w2 w3 : W) (el : E) (cur : Bool)
    (h1 : d.waitPresent loc t w = (Except.ok el, w1))
    (h2 : d.scrollIntoView el w1 = (Except.ok (), w2))
    (h3 : d.isSelected el (d.sleepHalf w2) = (Except.ok cur, w3)) :
    (cur = des →
      ∀ fresh w4 fin w5, d.findElement loc w3 = (Except.ok fresh, w4) →
      d.isSelected fresh w4 = (Except.ok fin, w5) →
      click_checkbox d loc des t w = (Except.ok (fin == des), w5)) ∧
    (cur ≠ des →
      (∀ w4, click_element d loc t w3 = (Except.ok true, w4) →
        ∀ fresh w5 fin w6, d.findElement loc w4 = (Except.ok fresh, w5) →
        d.isSelected fresh w5 = (Except.ok fin, w6) →
        click_checkbox d loc des t w = (Except.ok (fin == des), w6)) ∧
      (∀ w4, click_element d loc t w3 = (Except.ok false, w4) →
        click_checkbox d loc des t w = (Except.ok false, w4))) := by
  constructor
  · intro hc fresh w4 fin w5 h4 h5
    have heq : (cur != des) = false := by simp [hc]
    have hmain : click_checkbox_main d loc des t w = (Except.ok (fin == des), w5) := by
      unfold click_checkbox_main
      simp only [bind_apply, bindDM_pureDM, pure_apply, pureDM_apply,
        bindDM_ok h1, bindDM_ok h2, bindDM_ok (stepSleep_apply d.sleepHalf w2),
        bindDM_ok h3, heq,
        Bool.false_eq_true, if_false, eq_self_iff_true, if_true,
        bindDM_ok h4, bindDM_ok h5]
    unfold click_checkbox
    exact tryE_ok hmain
  · intro hc
    have hne' : (cur != des) = true := by
      cases cur <;> cases des <;> simp_all
    constructor
    · intro w4 hce fresh w5 fin w6 h4 h5
      have hmain : click_checkbox_main d loc des t w = (Except.ok (fin == des), w6) := by
        unfold click_checkbox_main
        simp only [bind_apply, bindDM_pureDM, pure_apply, pureDM_apply,
          bindDM_ok h1, bindDM_ok h2, bindDM_ok (stepSleep_apply d.sleepHalf w2),
          bindDM_ok h3, hne', eq_self_iff_true, if_true,
          bindDM_ok hce, bindDM_ok h4, bindDM_ok h5]
      unfold click_checkbox
      exact tryE_ok hmain
    · intro w4 hce
      have hmain : click_checkbox_main d loc des t w = (Except.ok false, w4) := by
        unfold click_checkbox_main
        simp only [bind_apply, bindDM_pureDM, pure_apply, pureDM_apply,
          bindDM_ok h1, bindDM_ok h2, bindDM_ok (stepSleep_apply d.sleepHalf w2),
          bindDM_ok h3, hne', eq_self_iff_true, if_true,
          bindDM_ok hce, Bool.false_eq_true, if_false]
      unfold click_checkbox
      exact tryE_ok hmain

/-- Witness for C8: on a fault-free instrumented driver whose checkbox reads
`false` both times, asking for `true` clicks once and the fresh re-read gates
the outcome (`false == true` gives `false`); on a driver whose click raises,
the delegated `click_element` reports failure and Checkbox Toggle stops there
with `false`, the log showing no re-location after the click. -/
theorem C8_checkbox_fresh_verification_witness :
    click_checkbox (logDriver faultFree) ("id", "cb") true 15 []
      = (Except.ok false,
         ["waitPresent", "scroll", "isSelected", "waitOverlay", "waitClickable",
          "scroll", "click", "findElement", "isSelected"]) ∧
    click_checkbox (logDriver clickFault) ("id", "cb") true 15 []
      = (Except.ok false,
         ["waitPresent", "scroll", "isSelected", "waitOverlay", "waitClickable",
          "scroll", "click"]) := by
  have hok := ((C8_checkbox_fresh_verification (logDriver faultFree) ("id", "cb")
    true 15 [] ["waitPresent"] ["waitPresent", "scroll"]
    ["waitPresent", "scroll", "isSelected"] () false rfl rfl rfl).2
    (by decide)).1
    ["waitPresent", "scroll", "isSelected", "waitOverlay", "waitClickable",
     "scroll", "click"] rfl ()
    ["waitPresent", "scroll", "isSelected", "waitOverlay", "waitClickable",
     "scroll", "click", "findElement"] false
    ["waitPresent", "scroll", "isSelected", "waitOverlay", "waitClickable",
     "scroll", "click", "findElement", "isSelected"] rfl rfl
  have hfail := ((C8_checkbox_fresh_verification (logDriver clickFault) ("id", "cb")
    true 15 [] ["waitPresent"] ["waitPresent", "scroll"]
    ["waitPresent", "scroll", "isSelected"] () false rfl rfl rfl).2
    (by decide)).2
    ["waitPresent", "scroll", "isSelected", "waitOverlay", "waitClickable",
     "scroll", "click"] rfl
  exact ⟨hok, hfail⟩

/-- C10: even on the zero-click path (control already in the desired state),
Checkbox Toggle re-locates the element freshly for the final verification; if
that re-location or the state read raises, the call returns `false` although
no action was needed. -/
theorem C10_noop_verification_can_fail {W E S : Type} (d : Driver W E S)
    (loc : Locator) (des : Bool) (t : Nat) (w w1 w2 w3 : W) (el : E)
    (h1 : d.waitPresent loc t w = (Except.ok el, w1))
    (h2 : d.scrollIntoView el w1 = (Except.ok (), w2))
    (h3 : d.isSelected el (d.sleepHalf w2) = (Except.ok des, w3)) :
    (∀ e w4, d.findElement loc w3 = (Except.error e, w4) →
      click_checkbox d loc des t w = (Except.ok false, w4)) ∧
    (∀ fresh w4 e w5, d.findElement loc w3 = (Except.ok fresh, w4) →
      d.isSelected fresh w4 = (Except.error e, w5) →
      click_checkbox d loc des t w = (Except.ok false, w5)) := by
  constructor
  · intro e w4 hfe
    have hmain : click_checkbox_main d loc des t w = (Except.error e, w4) := by
      unfold click_checkbox_main
      simp only [bind_apply, bindDM_pureDM, pure_apply, pureDM_apply,
        bindDM_ok h1, bindDM_ok h2, bindDM_ok (stepSleep_apply d.sleepHalf w2),
        bindDM_ok h3, bne_self_eq_false,
        Bool.false_eq_true, if_false, eq_self_iff_true, if_true, bindDM_error hfe]
    unfold click_checkbox
    rw [tryE_error hmain]
    cases e <;> rfl
  · intro fresh w4 e w5 hfe hsel
    have hmain : click_checkbox_main d loc des t w = (Except.error e, w5) := by
      unfold click_checkbox_main
      simp only [bind_apply, bindDM_pureDM, pure_apply, pureDM_apply,
        bindDM_ok h1, bindDM_ok h2, bindDM_ok (stepSleep_apply d.sleepHalf w2),
        bindDM_ok h3, bne_self_eq_false,
        Bool.false_eq_true, if_false, eq_self_iff_true, if_true, bindDM_ok hfe,
        bindDM_error hsel]
    unfold click_checkbox
    rw [tryE_error hmain]
    cases e <;> rfl

/-- Witness for C10: a checkbox already in the desired state whose
re-location raises a stale-element error makes Checkbox Toggle return `false`
with zero clicks in the log. -/
theorem C10_noop_verification_can_fail_witness :
    click_checkbox (logDriver findFault) ("id", "cb") false 15 []
      = (Except.ok false, ["waitPresent", "scroll", "isSelected", "findElement"]) ∧
    "click" ∉ (click_checkbox (logDriver findFault) ("id", "cb") false 15 []).2 := by
  have h := (C10_noop_verification_can_fail (logDriver findFault) ("id", "cb")
    false 15 [] ["waitPresent"] ["waitPresent", "scroll"]
    ["waitPresent", "scroll", "isSelected"] () rfl rfl rfl).1
    Exn.staleElementRefExn ["waitPresent", "scroll", "isSelected", "findElement"] rfl
  refine ⟨h, ?_⟩
  rw [h]
  decide

/-- C9 counterexample: a run in which the requested option is successfully
selected (the log records the selection call succeeding) but the read-back of
the selected option's label raises `NoSuchElementException`: the exception is
caught by the option-not-found handler and the call returns `false`, so the
read-back does gate the outcome when it raises. -/
theorem C9_counterexample :
    select_dropdown_option (logDriver readbackFault) ("id", "dd") "France" "visible_text" 15 []
      = (Except.ok false,
         ["waitPresent", "scroll", "mkSelect", "selectByVisibleText", "readback",
          "findElement", "mkSelect", "optionsTexts"]) ∧
    "selectByVisibleText" ∈
      (select_dropdown_option (logDriver readbackFault) ("id", "dd") "France"
        "visible_text" 15 []).2 := by
  constructor
  · rfl
  · decide


/-- C9 (amended): for every Dropdown Selection call, in any of the three
selection modes, in which the requested option is successfully selected:
whenever the read-back of the currently selected option's label yields a
label, that label is observational only and the call returns `true` regardless
of which string it is; but if the read-back itself raises, the exception is
caught and the call returns `false`. -/
theorem C9_readback_observational_when_it_yields {W E S : Type} (d : Driver W E S)
    (loc : Locator) (opt mode : String) (t : Nat) (w w1 w2 w3 w4 : W) (el : E) (sel : S)
    (h1 : d.waitPresent loc t w = (Except.ok el, w1))
    (h2 : d.scrollIntoView el w1 = (Except.ok (), w2))
    (h3 : d.mkSelect el (d.sleepHalf w2) = (Except.ok sel, w3))
    (h4 : (mode = "visible_text" ∧ d.selectByVisibleText sel opt w3 = (Except.ok (), w4)) ∨
          (mode = "value" ∧ d.selectByValue sel opt w3 = (Except.ok (), w4)) ∨
          (mode = "index" ∧ ∃ i, pyInt opt = Except.ok i ∧
            d.selectByIndex sel i w3 = (Except.ok (), w4))) :
    (∀ s w5, d.firstSelectedOptionText sel w4 = (Except.ok s, w5) →
      select_dropdown_option d loc opt mode t w = (Except.ok true, w5)) ∧
    (∀ e w5, d.firstSelectedOptionText sel w4 = (Except.error e, w5) →
      ∃ w6, select_dropdown_option d loc opt mode t w = (Except.ok false, w6)) := by
  have hm4 : select_dropdown_main d loc opt mode t w
      = bindDM (d.firstSelectedOptionText sel) (fun _ => pureDM true) w4 := by
    rcases h4 with ⟨hm, h4⟩ | ⟨hm, h4⟩ | ⟨hm, i, hpi, h4⟩
    · subst hm
      unfold select_dropdown_main
      simp only [bind_apply, bindDM_pureDM, pure_apply, pureDM_apply,
        bindDM_ok h1, bindDM_ok h2, bindDM_ok (stepSleep_apply d.sleepHalf w2),
        bindDM_ok h3, beq_self_eq_true, eq_self_iff_true, if_true, bindDM_ok h4]
    · subst hm
      have hm1 : (("value" : String) == "visible_text") = false := by decide
      unfold select_dropdown_main
      simp only [bind_apply, bindDM_pureDM, pure_apply, pureDM_apply,
        bindDM_ok h1, bindDM_ok h2, bindDM_ok (stepSleep_apply d.sleepHalf w2),
        bindDM_ok h3, hm1, Bool.false_eq_true, if_false,
        beq_self_eq_true, eq_self_iff_true, if_true, bindDM_ok h4]
    · subst hm
      have hm1 : (("index" : String) == "visible_text") = false := by decide
      have hm2 : (("index" : String) == "value") = false := by decide
      have hli : (liftE (pyInt opt) : DM W Int) w3 = (Except.ok i, w3) := by
        unfold liftE; rw [hpi]
      unfold select_dropdown_main
      simp only [bind_apply, bindDM_pureDM, pure_apply, pureDM_apply,
        bindDM_ok h1, bindDM_ok h2, bindDM_ok (stepSleep_apply d.sleepHalf w2),
        bindDM_ok h3, hm1, hm2, Bool.false_eq_true, if_false,
        beq_self_eq_true, eq_self_iff_true, if_true, bindDM_ok hli, bindDM_ok h4]
  constructor
  · intro s w5 h5
    have hmain : select_dropdown_main d loc opt mode t w = (Except.ok true, w5) := by
      rw [hm4, bindDM_ok h5]; rfl
    unfold select_dropdown_option
    exact tryE_ok hmain
  · intro e w5 h5
    have hmain : select_dropdown_main d loc opt mode t w = (Except.error e, w5) := by
      rw [hm4, bindDM_error h5]
    unfold select_dropdown_option
    rw [tryE_error hmain]
    cases e
    case noSuchElementExn =>
      rcases tryE_no_error (select_dropdown_enumerate d loc) (fun _ => pure ()) w5
          (fun e2 w6 => ⟨(), w6, rfl⟩) with ⟨u, w6, hu⟩
      refine ⟨w6, ?_⟩
      show (bindDM (tryE (select_dropdown_enumerate d loc) fun _ => pure ()) fun _ => pure false) w5
        = (Except.ok false, w6)
      rw [bindDM_ok hu]; rfl
    all_goals exact ⟨w5, rfl⟩

/-- Witness for the amended C9: on the fault-free instrumented driver the
read-back yields a label and the call returns `true` in each of the three
selection modes; on the driver whose read-back raises, the call returns
`false`. -/
theorem C9_readback_observational_when_it_yields_witness :
    select_dropdown_option (logDriver faultFree) ("id", "dd") "France" "visible_text" 15 []
      = (Except.ok true,
         ["waitPresent", "scroll", "mkSelect", "selectByVisibleText", "readback"]) ∧
    select_dropdown_option (logDriver faultFree) ("id", "dd") "FR" "value" 15 []
      = (Except.ok true,
         ["waitPresent", "scroll", "mkSelect", "selectByValue", "readback"]) ∧
    select_dropdown_option (logDriver faultFree) ("id", "dd") "2" "index" 15 []
      = (Except.ok true,
         ["waitPresent", "scroll", "mkSelect", "selectByIndex", "readback"]) ∧
    ∃ w6, select_dropdown_option (logDriver readbackFault) ("id", "dd") "France"
        "visible_text" 15 [] = (Except.ok false, w6) := by
  have hvt := (C9_readback_observational_when_it_yields (logDriver faultFree)
    ("id", "dd") "France" "visible_text" 15 [] ["waitPresent"] ["waitPresent", "scroll"]
    ["waitPresent", "scroll", "mkSelect"]
    ["waitPresent", "scroll", "mkSelect", "selectByVisibleText"] () ()
    rfl rfl rfl (Or.inl ⟨rfl, rfl⟩)).1 "opt"
    ["waitPresent", "scroll", "mkSelect", "selectByVisibleText", "readback"] rfl
  have hvv := (C9_readback_observational_when_it_yields (logDriver faultFree)
    ("id", "dd") "FR" "value" 15 [] ["waitPresent"] ["waitPresent", "scroll"]
    ["waitPresent", "scroll", "mkSelect"]
    ["waitPresent", "scroll", "mkSelect", "selectByValue"] () ()
    rfl rfl rfl (Or.inr (Or.inl ⟨rfl, rfl⟩))).1 "opt"
    ["waitPresent", "scroll", "mkSelect", "selectByValue", "readback"] rfl
  have hvi := (C9_readback_observational_when_it_yields (logDriver faultFree)
    ("id", "dd") "2" "index" 15 [] ["waitPresent"] ["waitPresent", "scroll"]
    ["waitPresent", "scroll", "mkSelect"]
    ["waitPresent", "scroll", "mkSelect", "selectByIndex"] () ()
    rfl rfl rfl (Or.inr (Or.inr ⟨rfl, 2, rfl, rfl⟩))).1 "opt"
    ["waitPresent", "scroll", "mkSelect", "selectByIndex", "readback"] rfl
  have hno := (C9_readback_observational_when_it_yields (logDriver readbackFault)
    ("id", "dd") "France" "visible_text" 15 [] ["waitPresent"] ["waitPresent", "scroll"]
    ["waitPresent", "scroll", "mkSelect"]
    ["waitPresent", "scroll", "mkSelect", "selectByVisibleText"] () ()
    rfl rfl rfl (Or.inl ⟨rfl, rfl⟩)).2 Exn.noSuchElementExn
    ["waitPresent", "scroll", "mkSelect", "selectByVisibleText", "readback"] rfl
  exact ⟨hvt, hvv, hvi, hno⟩
